import Mathlib

/-!
Shallow embedding of the Slider component from src/src/components/slider/index.tsx.

Numbers are modelled as rationals.  JavaScript division is total but produces
non-finite values (NaN or plus/minus Infinity) on a zero divisor; we model a
division whose divisor may be zero as an Option, with none standing for every
non-finite result.  The conversion functions getXForValue and getValueForX are
therefore Option-valued; all theorems about finite behaviour carry hypotheses
making the divisors nonzero, under which the Option is always some.

The stateful methods of the class are modelled as explicit functions from a
SliderState to a SliderState.  Native view references (this.thumb.current and
friends) are assumed present (mounted component); outbound callbacks are
recorded in an event log, newest first.
-/

namespace Slider

/-- Math.round of JavaScript: round half toward positive infinity. -/
def jsRound (x : ℚ) : ℤ := ⌊x + 1/2⌋

/-- JavaScript division, with none standing for the non-finite result produced
by a zero divisor. -/
def jsDiv (a b : ℚ) : Option ℚ := if b = 0 then none else some (a / b)

/-- The props of the Slider class that the modelled methods read.  Constants.isRTL
is a process-wide flag read by the component; it is passed here explicitly. -/
structure SliderProps where
  minimumValue : ℚ
  maximumValue : ℚ
  step : ℚ
  useRange : Bool
  disabled : Bool
  disableRTL : Bool
  isRTL : Bool
deriving DecidableEq

/-- getValueInRange: clamp a value into the minimumValue..maximumValue interval. -/
def getValueInRange (p : SliderProps) (value : ℚ) : ℚ :=
  if value < p.minimumValue then p.minimumValue
  else if value > p.maximumValue then p.maximumValue
  else value

/-- getRoundedValue: clamp, then when step is positive round to a multiple of step. -/
def getRoundedValue (p : SliderProps) (value : ℚ) : ℚ :=
  let v := getValueInRange p value
  if p.step > 0 then (jsRound (v / p.step) : ℚ) * p.step else v

/-- getRange: maximumValue - minimumValue. -/
def getRange (p : SliderProps) : ℚ :=
  p.maximumValue - p.minimumValue

/-- getXForValue: pixel offset for a value.  Divides by the range, so a
degenerate range yields none (non-finite in JavaScript). -/
def getXForValue (p : SliderProps) (trackWidth value : ℚ) : Option ℚ :=
  let range := getRange p
  let relativeValue := p.minimumValue - value
  let v := if p.minimumValue < 0 then |relativeValue| else value - p.minimumValue
  (jsDiv v range).map fun ratio => ratio * trackWidth

/-- getValueForX: value for a pixel offset.  Divides by
trackWidth - thumbWidth / 2, so that divisor being zero yields none. -/
def getValueForX (p : SliderProps) (trackWidth thumbWidth x : ℚ) : Option ℚ :=
  (jsDiv x (trackWidth - thumbWidth / 2)).map fun ratio =>
    if p.step ≠ 0 then
      max p.minimumValue (min p.maximumValue
        (p.minimumValue + (jsRound ((ratio * getRange p) / p.step) : ℚ) * p.step))
    else
      max p.minimumValue (min p.maximumValue (ratio * getRange p + p.minimumValue))

/-- The rational stored by JavaScript for getXForValue; the default 0 is only
taken on a zero divisor, which every theorem below excludes by hypothesis. -/
def jsXForValue (p : SliderProps) (trackWidth value : ℚ) : ℚ :=
  (getXForValue p trackWidth value).getD 0

/-- The rational stored by JavaScript for getValueForX; the default 0 is only
taken on a zero divisor, which every theorem below excludes by hypothesis. -/
def jsValueForX (p : SliderProps) (trackWidth thumbWidth x : ℚ) : ℚ :=
  (getValueForX p trackWidth thumbWidth x).getD 0

/-- The outbound callbacks of the component, recorded newest first. -/
inductive SliderEvent where
  | seekStart
  | seekEnd
  | valueChange (value : ℚ)
  | rangeChange (min max : ℚ)
  | announce (value : ℚ)
deriving DecidableEq

/-- The mutable fields of the Slider class instance that the modelled methods
touch.  thumbLeft models the left entry of the primary thumb style object,
which starts out absent (undefined in JavaScript); minThumbLeft starts at 0.
trackWidth is state.trackSize.width and initialThumbWidth is
initialThumbSize.width. -/
structure SliderState where
  x : ℚ
  xMin : ℚ
  lastDx : ℚ
  activeDefault : Bool
  thumbLeft : Option ℚ
  minThumbLeft : ℚ
  minTrackWidth : Option ℚ
  minTrackLeft : Option ℚ
  lastValue : ℚ
  lastMinValue : ℚ
  initialValue : ℚ
  minInitialValue : ℚ
  trackWidth : ℚ
  initialThumbWidth : ℚ
  measureCompleted : Bool
  events : List SliderEvent
deriving DecidableEq

/-- The disableRTL getter: range mode blocks forced LTR unconditionally. -/
def disableRTLG (p : SliderProps) : Bool :=
  if p.useRange then false else p.disableRTL

/-- shouldForceLTR: isRTL combined with the disableRTL getter. -/
def shouldForceLTR (p : SliderProps) : Bool :=
  p.isRTL && disableRTLG p

/-- get_x: the pixel offset of the active thumb. -/
def get_x (s : SliderState) : ℚ :=
  if s.activeDefault then s.x else s.xMin

/-- set_x: write the pixel offset of the active thumb. -/
def set_x (s : SliderState) (x : ℚ) : SliderState :=
  if s.activeDefault then {s with x := x} else {s with xMin := x}

/-- The left style computed inside moveTo for the primary thumb. -/
def leftForX (p : SliderProps) (trackWidth thumbWidth x : ℚ) : ℚ :=
  let nonOverlappingTrackWidth := trackWidth - thumbWidth
  let x' := if shouldForceLTR p then trackWidth - x else x
  if trackWidth = 0 then x' else x' * nonOverlappingTrackWidth / trackWidth

/-- The left style computed inside moveMinTo for the minimum thumb; note the
RTL branch mirrors around the non-overlapping width, unlike leftForX. -/
def minLeftForX (p : SliderProps) (trackWidth thumbWidth x : ℚ) : ℚ :=
  let nonOverlappingTrackWidth := trackWidth - thumbWidth
  let x' := if shouldForceLTR p then nonOverlappingTrackWidth - x else x
  if trackWidth = 0 then x' else x' * nonOverlappingTrackWidth / trackWidth

/-- onValueChange: commit the value and invoke the host callback. -/
def onValueChange (s : SliderState) (value : ℚ) : SliderState :=
  {s with lastValue := value, events := SliderEvent.valueChange value :: s.events}

/-- onRangeChange: commit to the active side, then report the pair, mirrored
when isRTL and the raw disableRTL prop are both set. -/
def onRangeChange (p : SliderProps) (s : SliderState) (value : ℚ) : SliderState :=
  let s1 := if s.activeDefault then {s with lastValue := value}
            else {s with lastMinValue := value}
  let pair :=
    if p.isRTL && p.disableRTL then
      (p.maximumValue - s1.lastValue, p.maximumValue - s1.lastMinValue)
    else
      (s1.lastMinValue, s1.lastValue)
  {s1 with events := SliderEvent.rangeChange pair.1 pair.2 :: s1.events}

/-- updateValue: derive the value from the offset and dispatch by mode. -/
def updateValue (p : SliderProps) (s : SliderState) (x : ℚ) : SliderState :=
  let value := jsValueForX p s.trackWidth s.initialThumbWidth x
  if p.useRange then onRangeChange p s value else onValueChange s value

/-- moveMinTo: move the minimum thumb, rejected when its left style would pass
the primary thumb's left style; a left style never set compares false in
JavaScript, so it also rejects. -/
def moveMinTo (p : SliderProps) (s : SliderState) (x : ℚ) : SliderState :=
  let left := minLeftForX p s.trackWidth s.initialThumbWidth x
  match s.thumbLeft with
  | some maxThumbPosition =>
      if left ≤ maxThumbPosition then
        updateValue p
          {s with minThumbLeft := left,
                  minTrackWidth := some (maxThumbPosition - x),
                  minTrackLeft := some x} x
      else s
  | none => s

/-- moveTo: move the active thumb.  In range mode a primary move whose left
style would drop below the minimum thumb's left style is rejected. -/
def moveTo (p : SliderProps) (s : SliderState) (x : ℚ) : SliderState :=
  if s.activeDefault then
    let left := leftForX p s.trackWidth s.initialThumbWidth x
    if p.useRange then
      if s.minThumbLeft ≤ left then
        updateValue p
          {s with thumbLeft := some left,
                  minTrackWidth := some (left - s.minThumbLeft)} x
      else s
    else
      {s with thumbLeft := some left,
              minTrackWidth := some (min s.trackWidth x)}
  else
    moveMinTo p s x

/-- clampToTrack: the clamping of the candidate offset done inside update. -/
def clampToTrack (s : SliderState) (x : ℚ) : ℚ :=
  max (min x s.trackWidth) 0

/-- update: add a delta to the active offset, clamp, store it, move, and in
non-range mode report the value. -/
def update (p : SliderProps) (s : SliderState) (dx : ℚ) : SliderState :=
  let x := clampToTrack s (get_x s + dx)
  let s1 := set_x s x
  let s2 := moveTo p s1 x
  if p.useRange then s2 else updateValue p s2 x

/-- bounceToStep: on a positive step, snap the active offset to the pixel
position of the rounded value. -/
def bounceToStep (p : SliderProps) (s : SliderState) : SliderState :=
  if p.step > 0 then
    let value := jsValueForX p s.trackWidth s.initialThumbWidth (get_x s)
    let roundedValue := getRoundedValue p value
    let x := jsXForValue p s.trackWidth roundedValue
    let s1 := set_x s x
    moveTo p s1 x
  else s

/-- handlePanResponderGrant: reset the delta tracker and fire onSeekStart;
there is no disabled guard here. -/
def handlePanResponderGrant (s : SliderState) : SliderState :=
  {s with lastDx := 0, events := SliderEvent.seekStart :: s.events}

/-- handlePanResponderMove: guarded by disabled; otherwise apply the
incremental delta, RTL-flipped via the disableRTL getter. -/
def handlePanResponderMove (p : SliderProps) (s : SliderState) (gestureDx : ℚ) :
    SliderState :=
  if p.disabled then s
  else
    let dx := gestureDx * (if p.isRTL && !(disableRTLG p) then -1 else 1)
    let s1 := update p s (dx - s.lastDx)
    {s1 with lastDx := dx}

/-- handlePanResponderEnd: bounce to step, then fire onSeekEnd; there is no
disabled guard here. -/
def handlePanResponderEnd (p : SliderProps) (s : SliderState) : SliderState :=
  let s1 := bounceToStep p s
  {s1 with events := SliderEvent.seekEnd :: s1.events}

/-- updateTrackStepAndStyle: a direct track tap; may switch the active thumb in
range mode (JavaScript truthiness makes a left style of 0 or one never set fail
the switch tests), then applies the tap offset. -/
def updateTrackStepAndStyle (p : SliderProps) (s : SliderState) (locationX : ℚ) :
    SliderState :=
  let newX := if p.isRTL && !(disableRTLG p) then s.trackWidth - locationX
              else locationX
  let s1 :=
    if p.useRange then
      if s.activeDefault && (s.minThumbLeft ≠ 0 && newX < s.minThumbLeft) then
        {s with activeDefault := false}
      else if !s.activeDefault &&
          (match s.thumbLeft with
           | some l => l ≠ 0 && newX > l
           | none => false) then
        {s with activeDefault := true}
      else s
    else s
  let s2 := set_x s1 newX
  let s3 := if !p.useRange then updateValue p s2 (get_x s2) else s2
  if p.step > 0 then bounceToStep p s3 else moveTo p s3 (get_x s3)

/-- handleTrackPress: guarded by disabled; otherwise onSeekStart, tap handling,
onSeekEnd. -/
def handleTrackPress (p : SliderProps) (s : SliderState) (locationX : ℚ) :
    SliderState :=
  if p.disabled then s
  else
    let s1 := {s with events := SliderEvent.seekStart :: s.events}
    let s2 := updateTrackStepAndStyle p s1 locationX
    {s2 with events := SliderEvent.seekEnd :: s2.events}

/-- The accessibility actions delivered to onAccessibilityAction. -/
inductive A11yAction where
  | increment
  | decrement
  | other
deriving DecidableEq

/-- onAccessibilityAction: derive the current value from the primary offset,
step it unless at the matching boundary, move and report, then announce the
stepped value. -/
def onAccessibilityAction (p : SliderProps) (s : SliderState) (a : A11yAction) :
    SliderState :=
  let value := jsValueForX p s.trackWidth s.initialThumbWidth s.x
  let newValue :=
    match a with
    | A11yAction.increment =>
        if value ≠ p.maximumValue then value + p.step else value
    | A11yAction.decrement =>
        if value ≠ p.minimumValue then value - p.step else value
    | A11yAction.other => value
  let s1 := {s with x := jsXForValue p s.trackWidth newValue}
  let s2 := updateValue p s1 s1.x
  let s3 := moveTo p s2 s2.x
  {s3 with events := SliderEvent.announce newValue :: s3.events}

/-- onOrientationChanged: restore last committed values as the initial values
and invalidate the measurement. -/
def onOrientationChanged (s : SliderState) : SliderState :=
  {s with initialValue := s.lastValue,
          minInitialValue := s.lastMinValue,
          measureCompleted := false}

/-- The measurement-completed branch of componentDidUpdate: fix the thumb size,
recompute both initial offsets from the initial values, and move the active
thumb to the primary offset. -/
def remeasure (p : SliderProps) (s : SliderState) (newThumbWidth : ℚ) :
    SliderState :=
  let s1 := {s with measureCompleted := true,
                    initialThumbWidth := newThumbWidth,
                    x := jsXForValue p s.trackWidth s.initialValue,
                    xMin := jsXForValue p s.trackWidth s.minInitialValue}
  moveTo p s1 s1.x

/-- The range-mode non-crossing invariant on the rendered left styles: whenever
the primary thumb's left style has been set, it is at least the minimum
thumb's left style. -/
def leftInv (s : SliderState) : Prop :=
  match s.thumbLeft with
  | none => True
  | some l => s.minThumbLeft ≤ l

instance (s : SliderState) : Decidable (leftInv s) :=
  match h : s.thumbLeft with
  | none => isTrue (by simp [leftInv, h])
  | some l => decidable_of_iff (s.minThumbLeft ≤ l) (by simp [leftInv, h])

/-! Concrete configurations and states used by the concrete theorems below.
The baseline is a mounted slider with a 100-pixel track and the default
24-pixel thumb. -/

/-- A concrete mounted baseline state. -/
def baseState : SliderState :=
  { x := 0, xMin := 0, lastDx := 0, activeDefault := true, thumbLeft := none,
    minThumbLeft := 0, minTrackWidth := none, minTrackLeft := none,
    lastValue := 0, lastMinValue := 0, initialValue := 0, minInitialValue := 0,
    trackWidth := 100, initialThumbWidth := 24, measureCompleted := true,
    events := [] }

/-- Configuration for C1: min 0, max 100, step 10, non-range. -/
def c1p : SliderProps := ⟨0, 100, 10, false, false, false, false⟩

/-- Configuration for C2: min 0, max 100, step 0, range mode. -/
def c2p : SliderProps := ⟨0, 100, 0, true, false, false, false⟩

/-- State for C2: primary thumb rendered at left 60, minimum thumb at 50. -/
def c2s : SliderState :=
  {baseState with x := 80, thumbLeft := some 60, minThumbLeft := 50}

/-- Configuration for C4: min 0, max 100, step 10, non-range. -/
def c4p : SliderProps := ⟨0, 100, 10, false, false, false, false⟩

/-- State for C4: primary offset 23 pixels, as after a drag to there. -/
def c4s : SliderState := {baseState with x := 23, thumbLeft := some 0}

/-- Configuration for C5: min 0, max 100, step 10, non-range. -/
def c5p : SliderProps := ⟨0, 100, 10, false, false, false, false⟩

/-- State for C5 counterexample: offset 44, from which the value reads as 50. -/
def c5s : SliderState := {baseState with x := 44}

/-- State for the C5 witness: offset 88, from which the value reads as 100. -/
def c5bs : SliderState := {baseState with x := 88}

/-- Configuration for C8 counterexample: range mode, min 0, max 100, step 0. -/
def c8p : SliderProps := ⟨0, 100, 0, true, false, false, false⟩

/-- State for C8 counterexample: last committed primary value 50. -/
def c8s : SliderState :=
  {baseState with x := 50, lastValue := 50, thumbLeft := some 0}

/-- Non-range configuration for the C8 witness. -/
def c8np : SliderProps := ⟨0, 100, 0, false, false, false, false⟩

/-- State for the C8 witness: last committed value 50. -/
def c8ns : SliderState := {baseState with x := 50, lastValue := 50}

/-- Disabled configuration for C9. -/
def c9p : SliderProps := ⟨0, 100, 0, false, true, false, false⟩

/-- State for C9. -/
def c9s : SliderState := baseState

/-- Configuration for C10: defaults, step 0, non-range. -/
def c10p : SliderProps := ⟨0, 100, 0, false, false, false, false⟩

/-- State for C10: offset 44, last committed value 50. -/
def c10s : SliderState := {baseState with x := 44, lastValue := 50}

/-! Helper lemmas about the JavaScript rounding function. -/

theorem jsRound_le_jsRound {x y : ℚ} (h : x ≤ y) : jsRound x ≤ jsRound y :=
  Int.floor_le_floor (by linarith)

theorem jsRound_intCast (n : ℤ) : jsRound (n : ℚ) = n := by
  rw [jsRound, add_comm, Int.floor_add_int]
  norm_num

theorem jsRound_nonpos {x : ℚ} (h : x ≤ 0) : jsRound x ≤ 0 := by
  have := jsRound_le_jsRound h
  rwa [show jsRound (0 : ℚ) = 0 from jsRound_intCast 0] at this

theorem intCast_le_jsRound {n : ℤ} {x : ℚ} (h : (n : ℚ) ≤ x) : n ≤ jsRound x := by
  have := jsRound_le_jsRound h
  rwa [jsRound_intCast] at this

theorem jsRound_le_intCast {n : ℤ} {x : ℚ} (h : x ≤ (n : ℚ)) : jsRound x ≤ n := by
  have := jsRound_le_jsRound h
  rwa [jsRound_intCast] at this

/-- Rounding a value to a multiple of a positive step lands within half a step. -/
theorem jsRound_nearest {y s : ℚ} (hs : 0 < s) :
    |y - (jsRound (y / s) : ℚ) * s| ≤ s / 2 := by
  set t := y / s with ht
  have hy : t * s = y := div_mul_cancel₀ y hs.ne'
  have h1 : (jsRound t : ℚ) ≤ t + 1/2 := Int.floor_le _
  have h2 : t + 1/2 < (jsRound t : ℚ) + 1 := Int.lt_floor_add_one _
  have habs : |t - (jsRound t : ℚ)| ≤ 1/2 := abs_le.mpr ⟨by linarith, by linarith⟩
  calc |y - (jsRound t : ℚ) * s| = |(t - (jsRound t : ℚ)) * s| := by rw [← hy]; ring_nf
    _ = |t - (jsRound t : ℚ)| * s := by rw [abs_mul, abs_of_pos hs]
    _ ≤ (1/2) * s := mul_le_mul_of_nonneg_right habs hs.le
    _ = s / 2 := by ring

/-- Monotonicity of the clamp used inside getValueForX. -/
theorem clampRange_mono (p : SliderProps) {a b : ℚ} (h : a ≤ b) :
    max p.minimumValue (min p.maximumValue a)
      ≤ max p.minimumValue (min p.maximumValue b) :=
  max_le_max le_rfl (min_le_min le_rfl h)

/-! Settling the claims. -/

/-- C3 (amended): with a degenerate range (maximumValue equal to minimumValue)
the code does not special-case the zero range.  getXForValue divides by the
zero range and yields a non-finite offset (none) for every input, while
getValueForX never divides by the range and its clamp into the one-point
interval returns the common value whenever its own divisor is nonzero. -/
theorem c3_degenerate_amended (p : SliderProps)
    (h : p.minimumValue = p.maximumValue) :
    (∀ trackWidth value, getXForValue p trackWidth value = none)
    ∧ (∀ trackWidth thumbWidth x, trackWidth - thumbWidth / 2 ≠ 0 →
        getValueForX p trackWidth thumbWidth x = some p.minimumValue) := by
  have hR : getRange p = 0 := by simp [getRange, h]
  constructor
  · intro tw v
    simp [getXForValue, jsDiv, hR]
  · intro tw w x hd
    rw [getValueForX, jsDiv, if_neg hd]
    simp only [Option.map_some', hR, mul_zero, zero_div, zero_add, h]
    split_ifs with hs
    · norm_num [jsRound]
    · norm_num

/-- C3 counterexample: with minimumValue = maximumValue = 0, getXForValue is
non-finite (none) at value 1 (Infinity in JavaScript) and at value 0 (NaN),
instead of the fixed finite offset the claim promises. -/
theorem c3_counterexample :
    getXForValue ⟨0, 0, 0, false, false, false, false⟩ 100 1 = none
    ∧ getXForValue ⟨0, 0, 0, false, false, false, false⟩ 100 0 = none := by
  norm_num [getXForValue, jsDiv, getRange]

/-- C3 witness for the amended theorem at a concrete degenerate range. -/
theorem c3_degenerate_witness :
    getXForValue ⟨5, 5, 0, false, false, false, false⟩ 80 7 = none
    ∧ getValueForX ⟨5, 5, 0, false, false, false, false⟩ 80 24 12 = some 5 :=
  ⟨(c3_degenerate_amended ⟨5, 5, 0, false, false, false, false⟩ rfl).1 80 7,
   (c3_degenerate_amended ⟨5, 5, 0, false, false, false, false⟩ rfl).2 80 24 12
     (by norm_num)⟩

/-- C9: when disabled is true, onSeekStart still fires at gesture grant and
onSeekEnd still fires at release (with bounceToStep still applied before it);
the disabled guard suppresses only handlePanResponderMove (which leaves the
state untouched) and handleTrackPress. -/
theorem c9_disabled_seek_callbacks (p : SliderProps) (s sm st : SliderState)
    (gestureDx locationX : ℚ) (h : p.disabled = true) :
    (handlePanResponderGrant s).events = SliderEvent.seekStart :: s.events
    ∧ handlePanResponderMove p sm gestureDx = sm
    ∧ (handlePanResponderEnd p s).events
        = SliderEvent.seekEnd :: (bounceToStep p s).events
    ∧ handleTrackPress p st locationX = st := by
  refine ⟨rfl, ?_, rfl, ?_⟩
  · rw [handlePanResponderMove, if_pos h]
  · rw [handleTrackPress, if_pos h]

/-- C9 witness at a concrete disabled configuration. -/
theorem c9_disabled_seek_witness :
    (handlePanResponderGrant c9s).events = SliderEvent.seekStart :: c9s.events
    ∧ handlePanResponderMove c9p c9s 3 = c9s
    ∧ (handlePanResponderEnd c9p c9s).events
        = SliderEvent.seekEnd :: (bounceToStep c9p c9s).events
    ∧ handleTrackPress c9p c9s 4 = c9s :=
  c9_disabled_seek_callbacks c9p c9s c9s c9s 3 4 rfl

/-- C6 (amended): getRoundedValue clamps first and then rounds the clamped
value to a multiple of the step nearest to it (within half a step), but that
multiple is anchored at zero, not at minimumValue, and can fall outside the
minimumValue..maximumValue range; the function is total. -/
theorem c6_rounding_amended (p : SliderProps) (v : ℚ) (hs : 0 < p.step) :
    (∃ k : ℤ, getRoundedValue p v = (k : ℚ) * p.step)
    ∧ |getValueInRange p v - getRoundedValue p v| ≤ p.step / 2 := by
  constructor
  · exact ⟨jsRound (getValueInRange p v / p.step), by
      simp only [getRoundedValue, if_pos hs]⟩
  · simp only [getRoundedValue, if_pos hs]
    exact jsRound_nearest hs

/-- C6 counterexample: with minimumValue 6, maximumValue 16, step 10, the
input 16 is clamped to 16 and then rounded to 20, which is not a value within
the range, refuting rounding to the nearest multiple of step within the range. -/
theorem c6_counterexample :
    getRoundedValue ⟨6, 16, 10, false, false, false, false⟩ 16 = 20
    ∧ ¬(getRoundedValue ⟨6, 16, 10, false, false, false, false⟩ 16 ≤ 16) := by
  norm_num [getRoundedValue, getValueInRange, jsRound]

/-- C6 witness for the amended theorem at step 10 and input 23. -/
theorem c6_rounding_witness :
    (0:ℚ) < 10
    ∧ ((∃ k : ℤ, getRoundedValue ⟨0, 100, 10, false, false, false, false⟩ 23
          = (k : ℚ) * 10)
       ∧ |getValueInRange ⟨0, 100, 10, false, false, false, false⟩ 23
            - getRoundedValue ⟨0, 100, 10, false, false, false, false⟩ 23|
          ≤ 10 / 2) :=
  ⟨by norm_num,
   c6_rounding_amended ⟨0, 100, 10, false, false, false, false⟩ 23 (by norm_num)⟩

/-- C7: getValueForX is monotonically non-decreasing on offsets in the track,
for any configuration with minimumValue below maximumValue and a nonnegative
step, whenever its divisor is nonzero so that it returns finite values. -/
theorem c7_value_monotone (p : SliderProps) (trackWidth thumbWidth x1 x2 v1 v2 : ℚ)
    (hmm : p.minimumValue < p.maximumValue) (hs : 0 ≤ p.step)
    (h0 : 0 ≤ x1) (h12 : x1 ≤ x2) (h2 : x2 ≤ trackWidth)
    (hv1 : getValueForX p trackWidth thumbWidth x1 = some v1)
    (hv2 : getValueForX p trackWidth thumbWidth x2 = some v2) :
    v1 ≤ v2 := by
  set d := trackWidth - thumbWidth / 2 with hd
  have hdne : d ≠ 0 := by
    intro h
    rw [getValueForX, jsDiv, ← hd, if_pos h] at hv1
    simp at hv1
  rw [getValueForX, jsDiv, ← hd, if_neg hdne, Option.map_some'] at hv1 hv2
  injection hv1 with hv1
  injection hv2 with hv2
  subst hv1
  subst hv2
  have hR : 0 < getRange p := by
    rw [getRange]; linarith
  have key : ∀ z, z ≤ p.minimumValue →
      max p.minimumValue (min p.maximumValue z) = p.minimumValue := by
    intro z hz
    exact max_eq_left (le_trans (min_le_right _ _) hz)
  rcases lt_or_gt_of_ne hdne with hneg | hpos
  · -- divisor negative: both ratios are nonpositive and both sides clamp to
    -- the minimum
    have r1 : x1 / d ≤ 0 := div_nonpos_of_nonneg_of_nonpos h0 hneg.le
    have r2 : x2 / d ≤ 0 :=
      div_nonpos_of_nonneg_of_nonpos (le_trans h0 h12) hneg.le
    split_ifs with hstep
    · have hs' : 0 < p.step := lt_of_le_of_ne hs (Ne.symm hstep)
      have e1 : (jsRound (x1 / d * getRange p / p.step) : ℚ) * p.step ≤ 0 := by
        have t1 : x1 / d * getRange p / p.step ≤ 0 :=
          div_nonpos_of_nonpos_of_nonneg
            (mul_nonpos_iff.mpr (Or.inr ⟨r1, hR.le⟩)) hs'.le
        have := jsRound_nonpos t1
        have hcast : (jsRound (x1 / d * getRange p / p.step) : ℚ) ≤ 0 := by
          exact_mod_cast this
        exact mul_nonpos_iff.mpr (Or.inr ⟨hcast, hs⟩)
      have e2 : (jsRound (x2 / d * getRange p / p.step) : ℚ) * p.step ≤ 0 := by
        have t2 : x2 / d * getRange p / p.step ≤ 0 :=
          div_nonpos_of_nonpos_of_nonneg
            (mul_nonpos_iff.mpr (Or.inr ⟨r2, hR.le⟩)) hs'.le
        have := jsRound_nonpos t2
        have hcast : (jsRound (x2 / d * getRange p / p.step) : ℚ) ≤ 0 := by
          exact_mod_cast this
        exact mul_nonpos_iff.mpr (Or.inr ⟨hcast, hs⟩)
      rw [key _ (by linarith), key _ (by linarith)]
    · have e1 : x1 / d * getRange p ≤ 0 := mul_nonpos_iff.mpr (Or.inr ⟨r1, hR.le⟩)
      have e2 : x2 / d * getRange p ≤ 0 := mul_nonpos_iff.mpr (Or.inr ⟨r2, hR.le⟩)
      rw [key _ (by linarith), key _ (by linarith)]
  · -- divisor positive: everything is monotone
    have hr : x1 / d ≤ x2 / d := by gcongr
    split_ifs with hstep
    · have hs' : 0 < p.step := lt_of_le_of_ne hs (Ne.symm hstep)
      have m2 : x1 / d * getRange p / p.step ≤ x2 / d * getRange p / p.step := by
        gcongr
      have m3 := jsRound_le_jsRound m2
      have m4 : (jsRound (x1 / d * getRange p / p.step) : ℚ) * p.step
          ≤ (jsRound (x2 / d * getRange p / p.step) : ℚ) * p.step :=
        mul_le_mul_of_nonneg_right (by exact_mod_cast m3) hs
      exact clampRange_mono p (by linarith)
    · have m1 : x1 / d * getRange p ≤ x2 / d * getRange p :=
        mul_le_mul_of_nonneg_right hr hR.le
      exact clampRange_mono p (by linarith)

/-- C7 witness at a concrete configuration with step 0. -/
theorem c7_value_monotone_witness :
    getValueForX ⟨0, 100, 0, false, false, false, false⟩ 100 24 0 = some 0
    ∧ getValueForX ⟨0, 100, 0, false, false, false, false⟩ 100 24 44 = some 50
    ∧ (0 : ℚ) ≤ 50 := by
  have h1 : getValueForX ⟨0, 100, 0, false, false, false, false⟩ 100 24 0
      = some 0 := by
    norm_num [getValueForX, jsDiv, getRange]
  have h2 : getValueForX ⟨0, 100, 0, false, false, false, false⟩ 100 24 44
      = some 50 := by
    norm_num [getValueForX, jsDiv, getRange]
  exact ⟨h1, h2,
    c7_value_monotone ⟨0, 100, 0, false, false, false, false⟩ 100 24 0 44 0 50
      (by norm_num) (by norm_num) (by norm_num) (by norm_num) (by norm_num) h1 h2⟩

/-- C1 (amended): the stepped round trip getValueForX of getXForValue of
getRoundedValue is exact, and in particular bucket-preserving, when the
half-thumb-width adjustment vanishes (thumb width 0, so the divisor of
getValueForX is the full track width) and minimumValue is an integer multiple
of the step; with the component's nonzero thumb width the two conversions use
different denominators and the bucket is not preserved. -/
theorem c1_round_trip_amended (p : SliderProps) (trackWidth v : ℚ) (j k : ℤ)
    (hs : 0 < p.step)
    (hm : p.minimumValue = (j : ℚ) * p.step)
    (hM : p.maximumValue = p.minimumValue + (k : ℚ) * p.step)
    (hk : 0 < k) (htw : 0 < trackWidth)
    (hv1 : p.minimumValue ≤ v) (hv2 : v ≤ p.maximumValue) :
    (getXForValue p trackWidth (getRoundedValue p v)).bind
        (getValueForX p trackWidth 0)
      = some (getRoundedValue p v) := by
  have hsne : p.step ≠ 0 := hs.ne'
  have hkq : (0:ℚ) < (k:ℚ) := by exact_mod_cast hk
  have hR : getRange p = (k : ℚ) * p.step := by rw [getRange, hM]; ring
  have hRpos : 0 < getRange p := by rw [hR]; positivity
  set q := jsRound (v / p.step) with hq
  have hclamp : getValueInRange p v = v := by
    rw [getValueInRange, if_neg (not_lt.mpr hv1), if_neg (not_lt.mpr hv2)]
  have hround : getRoundedValue p v = (q : ℚ) * p.step := by
    simp only [getRoundedValue, hclamp, if_pos hs, hq]
  have hmdiv : p.minimumValue / p.step = ((j : ℤ) : ℚ) := by
    rw [hm]; field_simp
  have hMdiv : p.maximumValue / p.step = ((j + k : ℤ) : ℚ) := by
    rw [hM, hm]; push_cast; field_simp; ring
  have hjq : j ≤ q := by
    apply intCast_le_jsRound
    rw [← hmdiv]
    exact (div_le_div_iff_of_pos_right hs).mpr hv1
  have hqk : q ≤ j + k := by
    apply jsRound_le_intCast
    rw [← hMdiv]
    exact (div_le_div_iff_of_pos_right hs).mpr hv2
  have hjq' : ((j : ℤ) : ℚ) ≤ ((q : ℤ) : ℚ) := by exact_mod_cast hjq
  have hqk' : ((q : ℤ) : ℚ) ≤ ((j + k : ℤ) : ℚ) := by exact_mod_cast hqk
  have hrm : p.minimumValue ≤ (q : ℚ) * p.step := by
    rw [hm]; exact mul_le_mul_of_nonneg_right hjq' hs.le
  have hrM : (q : ℚ) * p.step ≤ p.maximumValue := by
    rw [hM, hm]
    calc (q : ℚ) * p.step ≤ ((j + k : ℤ) : ℚ) * p.step :=
          mul_le_mul_of_nonneg_right hqk' hs.le
      _ = (j : ℚ) * p.step + (k : ℚ) * p.step := by push_cast; ring
  have habs : (if p.minimumValue < 0 then |p.minimumValue - (q : ℚ) * p.step|
      else (q : ℚ) * p.step - p.minimumValue)
      = (q : ℚ) * p.step - p.minimumValue := by
    split_ifs with h
    · rw [abs_of_nonpos (by linarith)]; ring
    · rfl
  rw [hround]
  have hx : getXForValue p trackWidth ((q : ℚ) * p.step)
      = some (((q : ℚ) * p.step - p.minimumValue) / getRange p * trackWidth) := by
    simp only [getXForValue, jsDiv, if_neg hRpos.ne', Option.map_some', habs]
  rw [hx, Option.some_bind]
  have hdiv0 : trackWidth - (0:ℚ) / 2 = trackWidth := by ring
  have hratio : ((q : ℚ) * p.step - p.minimumValue) / getRange p * trackWidth
      / trackWidth = ((q : ℚ) * p.step - p.minimumValue) / getRange p :=
    mul_div_cancel_right₀ _ htw.ne'
  have hback : ((q : ℚ) * p.step - p.minimumValue) / getRange p * getRange p
      = (q : ℚ) * p.step - p.minimumValue := div_mul_cancel₀ _ hRpos.ne'
  have hsteps : ((q : ℚ) * p.step - p.minimumValue) / p.step = ((q - j : ℤ) : ℚ) := by
    rw [hm]; push_cast; field_simp; ring
  rw [getValueForX, jsDiv, hdiv0, if_neg htw.ne', Option.map_some', if_pos hsne,
    hratio, hback, hsteps, jsRound_intCast]
  have hinner : p.minimumValue + ((q - j : ℤ) : ℚ) * p.step = (q : ℚ) * p.step := by
    rw [hm]; push_cast; ring
  rw [hinner, min_eq_right hrM, max_eq_right hrm]

/-- C1 counterexample: with min 0, max 100, step 10 (dividing the range), a
100-pixel track and the default 24-pixel thumb, the value 50 converts to the
offset 50 but converts back to 60, a different step bucket. -/
theorem c1_counterexample :
    (getXForValue c1p 100 (getRoundedValue c1p 50)).bind (getValueForX c1p 100 24)
      = some 60
    ∧ getRoundedValue c1p 60 ≠ getRoundedValue c1p 50 := by
  norm_num [c1p, getXForValue, getValueForX, getRoundedValue, getValueInRange,
    jsDiv, jsRound, getRange]

/-- C1 witness for the amended theorem, at min 0, max 100, step 10, value 50,
zero thumb width. -/
theorem c1_round_trip_witness :
    (getXForValue c1p 100 (getRoundedValue c1p 50)).bind (getValueForX c1p 100 0)
      = some (getRoundedValue c1p 50) :=
  c1_round_trip_amended c1p 100 50 0 10 (by norm_num [c1p]) (by norm_num [c1p])
    (by norm_num [c1p]) (by norm_num) (by norm_num) (by norm_num [c1p])
    (by norm_num [c1p])

/-- C2 (amended): in range mode the rendered left styles never cross: the
non-crossing invariant is preserved by every update, and an update whose new
left style would cross is rejected — rendered positions, track segment,
committed values and the event log are all unchanged — but the active thumb's
raw pixel offset is still overwritten with the clamped target before the
rejection happens. -/
theorem c2_range_inv_amended (p : SliderProps) (s : SliderState) (dx : ℚ)
    (hr : p.useRange = true) (hinv : leftInv s) :
    leftInv (update p s dx)
    ∧ (s.activeDefault = true →
        leftForX p s.trackWidth s.initialThumbWidth (clampToTrack s (s.x + dx))
            < s.minThumbLeft →
        update p s dx = {s with x := clampToTrack s (s.x + dx)})
    ∧ (s.activeDefault = false → ∀ maxLeft, s.thumbLeft = some maxLeft →
        maxLeft < minLeftForX p s.trackWidth s.initialThumbWidth
            (clampToTrack s (s.xMin + dx)) →
        update p s dx = {s with xMin := clampToTrack s (s.xMin + dx)}) := by
  cases hA : s.activeDefault
  case true =>
    have hupd : update p s dx =
        if s.minThumbLeft ≤ leftForX p s.trackWidth s.initialThumbWidth
            (clampToTrack s (s.x + dx)) then
          updateValue p
            {s with x := clampToTrack s (s.x + dx),
                    thumbLeft := some (leftForX p s.trackWidth
                      s.initialThumbWidth (clampToTrack s (s.x + dx))),
                    minTrackWidth := some (leftForX p s.trackWidth
                      s.initialThumbWidth (clampToTrack s (s.x + dx))
                      - s.minThumbLeft)}
            (clampToTrack s (s.x + dx))
        else {s with x := clampToTrack s (s.x + dx)} := by
      simp [update, get_x, set_x, moveTo, hA, hr]
    by_cases hacc : s.minThumbLeft ≤ leftForX p s.trackWidth s.initialThumbWidth
        (clampToTrack s (s.x + dx))
    · rw [hupd, if_pos hacc]
      refine ⟨?_, ?_, ?_⟩
      · simp [updateValue, hr, onRangeChange, leftInv, hA]
        exact hacc
      · intro _ hlt
        exact absurd hlt (not_lt.mpr hacc)
      · intro hAd
        simp at hAd
    · rw [hupd, if_neg hacc]
      refine ⟨?_, ?_, ?_⟩
      · exact hinv
      · intro _ _
        simp [hA]
      · intro hAd
        simp at hAd
  case false =>
    rcases hTL : s.thumbLeft with _ | maxLeft
    · have hupd : update p s dx = {s with xMin := clampToTrack s (s.xMin + dx)} := by
        simp [update, get_x, set_x, moveTo, moveMinTo, hA, hr, hTL]
      rw [hupd]
      refine ⟨?_, ?_, ?_⟩
      · exact hinv
      · intro hAd
        simp at hAd
      · intro _ mL hmL
        exact absurd hmL (by simp)
    · have hupd : update p s dx =
          if minLeftForX p s.trackWidth s.initialThumbWidth
              (clampToTrack s (s.xMin + dx)) ≤ maxLeft then
            updateValue p
              {s with xMin := clampToTrack s (s.xMin + dx),
                      minThumbLeft := minLeftForX p s.trackWidth
                        s.initialThumbWidth (clampToTrack s (s.xMin + dx)),
                      minTrackWidth := some (maxLeft
                        - clampToTrack s (s.xMin + dx)),
                      minTrackLeft := some (clampToTrack s (s.xMin + dx))}
              (clampToTrack s (s.xMin + dx))
          else {s with xMin := clampToTrack s (s.xMin + dx)} := by
        simp [update, get_x, set_x, moveTo, moveMinTo, hA, hr, hTL]
      by_cases hacc : minLeftForX p s.trackWidth s.initialThumbWidth
          (clampToTrack s (s.xMin + dx)) ≤ maxLeft
      · rw [hupd, if_pos hacc]
        refine ⟨?_, ?_, ?_⟩
        · simp [updateValue, hr, onRangeChange, leftInv, hA, hTL]
          exact hacc
        · intro hAd
          simp at hAd
        · intro _ mL hmL hlt
          injection hmL with hmL
          subst hmL
          exact absurd hlt (not_lt.mpr hacc)
      · rw [hupd, if_neg hacc]
        refine ⟨?_, ?_, ?_⟩
        · have h2 : leftInv s = (s.minThumbLeft ≤ maxLeft) := by
            simp only [leftInv, hTL]
          have h3 : leftInv {s with xMin := clampToTrack s (s.xMin + dx)}
              = leftInv s := rfl
          rw [h3, h2]
          rw [h2] at hinv
          exact hinv
        · intro hAd
          simp at hAd
        · intro _ _ _ _
          simp [hA, hTL]

/-- C2 counterexample: in range mode a rejected (crossing) primary move is not
a no-op on position state: the rendered lefts, values and events are all
unchanged, but the raw primary pixel offset has been overwritten (80 became
10), so not all position state is left unchanged. -/
theorem c2_counterexample :
    (update c2p c2s (-70)).thumbLeft = c2s.thumbLeft
    ∧ (update c2p c2s (-70)).minThumbLeft = c2s.minThumbLeft
    ∧ (update c2p c2s (-70)).lastValue = c2s.lastValue
    ∧ (update c2p c2s (-70)).lastMinValue = c2s.lastMinValue
    ∧ (update c2p c2s (-70)).events = c2s.events
    ∧ (update c2p c2s (-70)).x ≠ c2s.x := by
  norm_num [update, clampToTrack, c2p, c2s, baseState, get_x, set_x, moveTo,
    moveMinTo, leftForX, minLeftForX, shouldForceLTR, disableRTLG, updateValue,
    onValueChange, onRangeChange, jsValueForX, getValueForX, jsDiv, jsRound,
    getRange]

/-- C2 witness for the amended theorem at a concrete rejected move. -/
theorem c2_range_inv_witness :
    leftInv (update c2p c2s (-70))
    ∧ update c2p c2s (-70) = {c2s with x := clampToTrack c2s (c2s.x + -70)} := by
  have h := c2_range_inv_amended c2p c2s (-70) rfl
    (by norm_num [leftInv, c2s, baseState])
  exact ⟨h.1, h.2.1 rfl (by norm_num [leftForX, shouldForceLTR, disableRTLG,
    clampToTrack, c2p, c2s, baseState])⟩

/-- C4 (amended): with step 10, min 0, max 100, a 100-pixel track and the
default 24-pixel thumb, releasing a drag at offset 23 snaps the thumb's
offset to 30 — the pixel position of the stepped value 30 that getValueForX
reads at offset 23 because of the half-thumb-width asymmetry, not the
position of value 20 — and no onValueChange fires at release (stepped values
are reported during moves); only onSeekEnd fires. -/
theorem c4_release_amended :
    jsValueForX c4p c4s.trackWidth c4s.initialThumbWidth 23 = 30
    ∧ (handlePanResponderEnd c4p c4s).x = 30
    ∧ (handlePanResponderEnd c4p c4s).x
        = jsXForValue c4p c4s.trackWidth
            (getRoundedValue c4p
              (jsValueForX c4p c4s.trackWidth c4s.initialThumbWidth 23))
    ∧ (handlePanResponderEnd c4p c4s).events = [SliderEvent.seekEnd] := by
  norm_num [handlePanResponderEnd, bounceToStep, c4p, c4s, baseState,
    jsValueForX, jsXForValue, getValueForX, getXForValue, getRoundedValue,
    getValueInRange, getRange, jsDiv, jsRound, get_x, set_x, moveTo, moveMinTo,
    leftForX, minLeftForX, shouldForceLTR, disableRTLG, updateValue,
    onValueChange, onRangeChange]

/-- C4 counterexample: at release from offset 23 the thumb does not land on
the offset of value 20 (it lands on 30), and the event log at release holds
only onSeekEnd — no onValueChange with 20 (or any value) fires at release. -/
theorem c4_counterexample :
    (handlePanResponderEnd c4p c4s).x ≠ jsXForValue c4p c4s.trackWidth 20
    ∧ (handlePanResponderEnd c4p c4s).events = [SliderEvent.seekEnd] := by
  norm_num [handlePanResponderEnd, bounceToStep, c4p, c4s, baseState,
    jsValueForX, jsXForValue, getValueForX, getXForValue, getRoundedValue,
    getValueInRange, getRange, jsDiv, jsRound, get_x, set_x, moveTo, moveMinTo,
    leftForX, minLeftForX, shouldForceLTR, disableRTLG, updateValue,
    onValueChange, onRangeChange]

/-- C8 (amended): in non-range mode with the primary thumb active, an
orientation change followed by re-measurement leaves the committed values and
the event log unchanged, because moveTo on the single-thumb path touches only
the rendered styles.  In range mode the re-measurement path re-commits the
round trip of the last value through updateValue and can change it. -/
theorem c8_orientation_amended (p : SliderProps) (s : SliderState)
    (newThumbWidth : ℚ) (hnr : p.useRange = false) (hA : s.activeDefault = true) :
    (remeasure p (onOrientationChanged s) newThumbWidth).lastValue = s.lastValue
    ∧ (remeasure p (onOrientationChanged s) newThumbWidth).lastMinValue
        = s.lastMinValue
    ∧ (remeasure p (onOrientationChanged s) newThumbWidth).events = s.events := by
  simp [remeasure, onOrientationChanged, moveTo, moveMinTo, hnr, hA]

/-- C8 counterexample: in range mode with min 0, max 100, step 0, a 100-pixel
track, a 24-pixel thumb and last committed primary value 50, an orientation
change followed by re-measurement re-commits 625/11 (about 56.8), not 50: the
reported value is not preserved. -/
theorem c8_counterexample :
    c8s.lastValue = 50
    ∧ (remeasure c8p (onOrientationChanged c8s) 24).lastValue = 625 / 11
    ∧ (625 / 11 : ℚ) ≠ 50 := by
  norm_num [remeasure, onOrientationChanged, moveTo, moveMinTo, leftForX,
    minLeftForX, shouldForceLTR, disableRTLG, updateValue, onRangeChange,
    onValueChange, jsXForValue, jsValueForX, getXForValue, getValueForX, jsDiv,
    jsRound, getRange, c8p, c8s, baseState]

/-- C8 witness for the amended theorem at a concrete non-range state. -/
theorem c8_orientation_witness :
    (remeasure c8np (onOrientationChanged c8ns) 24).lastValue = c8ns.lastValue
    ∧ (remeasure c8np (onOrientationChanged c8ns) 24).lastMinValue
        = c8ns.lastMinValue
    ∧ (remeasure c8np (onOrientationChanged c8ns) 24).events = c8ns.events :=
  c8_orientation_amended c8np c8ns 24 rfl rfl

/-- C10 (amended): with step 0 (the default) every accessibility action
computes newValue equal to the current value read from the primary offset and
announces that value, but the thumb is moved to getXForValue of it and the
committed, notified value is the round trip getValueForX of getXForValue of
it, which with a nonzero thumb width need not equal the current value. -/
theorem c10_zero_step_amended (p : SliderProps) (s : SliderState) (a : A11yAction)
    (hz : p.step = 0) (hnr : p.useRange = false) (hA : s.activeDefault = true) :
    (onAccessibilityAction p s a).x
        = jsXForValue p s.trackWidth
            (jsValueForX p s.trackWidth s.initialThumbWidth s.x)
    ∧ (onAccessibilityAction p s a).events
        = SliderEvent.announce (jsValueForX p s.trackWidth s.initialThumbWidth s.x)
          :: SliderEvent.valueChange
               (jsValueForX p s.trackWidth s.initialThumbWidth
                 (jsXForValue p s.trackWidth
                   (jsValueForX p s.trackWidth s.initialThumbWidth s.x)))
          :: s.events := by
  cases a <;>
    simp [onAccessibilityAction, hz, hnr, hA, updateValue, onValueChange, moveTo]

/-- C10 counterexample: at offset 44 (current value 50) with step 0, min 0,
max 100, a 100-pixel track and a 24-pixel thumb, the increment action leaves
newValue = 50 + 0 = 50 (and announces 50) but commits and notifies 625/11,
changing the domain value even though no boundary was involved. -/
theorem c10_counterexample :
    jsValueForX c10p c10s.trackWidth c10s.initialThumbWidth c10s.x = 50
    ∧ (onAccessibilityAction c10p c10s A11yAction.increment).lastValue = 625 / 11
    ∧ (onAccessibilityAction c10p c10s A11yAction.increment).events
        = [SliderEvent.announce 50, SliderEvent.valueChange (625 / 11)]
    ∧ (625 / 11 : ℚ) ≠ 50 := by
  norm_num [onAccessibilityAction, updateValue, onValueChange, onRangeChange,
    moveTo, moveMinTo, leftForX, minLeftForX, shouldForceLTR, disableRTLG,
    jsXForValue, jsValueForX, getXForValue, getValueForX, jsDiv, jsRound,
    getRange, c10p, c10s, baseState]

/-- C10 witness for the amended theorem at a concrete state. -/
theorem c10_zero_step_witness :
    (onAccessibilityAction c10p c10s A11yAction.increment).x
        = jsXForValue c10p c10s.trackWidth
            (jsValueForX c10p c10s.trackWidth c10s.initialThumbWidth c10s.x)
    ∧ (onAccessibilityAction c10p c10s A11yAction.increment).events
        = SliderEvent.announce
            (jsValueForX c10p c10s.trackWidth c10s.initialThumbWidth c10s.x)
          :: SliderEvent.valueChange
               (jsValueForX c10p c10s.trackWidth c10s.initialThumbWidth
                 (jsXForValue c10p c10s.trackWidth
                   (jsValueForX c10p c10s.trackWidth c10s.initialThumbWidth
                     c10s.x)))
          :: c10s.events :=
  c10_zero_step_amended c10p c10s A11yAction.increment rfl rfl rfl

/-- jsRound of zero is zero. -/
theorem jsRound_zero : jsRound 0 = 0 := by
  simpa using jsRound_intCast 0

/-- With a positive range, the offset of the maximum value is the track width. -/
theorem xForValue_max (p : SliderProps) (trackWidth : ℚ) (hR : 0 < getRange p) :
    jsXForValue p trackWidth p.maximumValue = trackWidth := by
  have habs : (if p.minimumValue < 0 then |p.minimumValue - p.maximumValue|
      else p.maximumValue - p.minimumValue) = getRange p := by
    rw [getRange]
    split_ifs with h
    · rw [abs_of_nonpos (by rw [getRange] at hR; linarith)]
      ring
    · rfl
  simp only [jsXForValue, getXForValue, jsDiv, if_neg hR.ne', Option.map_some',
    habs, Option.getD_some, div_self hR.ne', one_mul]

/-- With a positive range, the offset of the minimum value is zero. -/
theorem xForValue_min (p : SliderProps) (trackWidth : ℚ) (hR : 0 < getRange p) :
    jsXForValue p trackWidth p.minimumValue = 0 := by
  have habs : (if p.minimumValue < 0 then |p.minimumValue - p.minimumValue|
      else p.minimumValue - p.minimumValue) = 0 := by
    split_ifs <;> simp
  simp only [jsXForValue, getXForValue, jsDiv, if_neg hR.ne', Option.map_some',
    Option.getD_some, habs, zero_div, zero_mul]

/-- Reading the value at the full track width saturates to the maximum, given
a nonnegative thumb width, a positive divisor and a step of zero or one that
divides the range. -/
theorem valueForX_top (p : SliderProps) (trackWidth thumbWidth : ℚ)
    (hmm : p.minimumValue < p.maximumValue)
    (hw : 0 ≤ thumbWidth)
    (hd : 0 < trackWidth - thumbWidth / 2)
    (hstep : p.step = 0 ∨ (0 < p.step ∧ ∃ k : ℤ, getRange p = (k : ℚ) * p.step)) :
    jsValueForX p trackWidth thumbWidth trackWidth = p.maximumValue := by
  have hR : 0 < getRange p := by rw [getRange]; linarith
  have hratio : 1 ≤ trackWidth / (trackWidth - thumbWidth / 2) :=
    (one_le_div hd).mpr (by linarith)
  have h1 : getRange p ≤ trackWidth / (trackWidth - thumbWidth / 2) * getRange p :=
    le_mul_of_one_le_left hR.le hratio
  simp only [jsValueForX, getValueForX, jsDiv, if_neg hd.ne', Option.map_some',
    Option.getD_some]
  rcases hstep with hz | ⟨hs, k, hk⟩
  · rw [if_neg (by simp [hz])]
    have hRdef : getRange p = p.maximumValue - p.minimumValue := by rw [getRange]
    have h2 : p.maximumValue ≤ trackWidth / (trackWidth - thumbWidth / 2)
        * getRange p + p.minimumValue := by
      linarith
    rw [min_eq_left h2, max_eq_right hmm.le]
  · rw [if_pos hs.ne']
    have h2 : (k : ℚ) ≤ trackWidth / (trackWidth - thumbWidth / 2)
        * getRange p / p.step := by
      calc (k : ℚ) = getRange p / p.step := by rw [hk]; field_simp
        _ ≤ _ := (div_le_div_iff_of_pos_right hs).mpr h1
    have h3 := intCast_le_jsRound h2
    have h5 : (k : ℚ) * p.step
        ≤ (jsRound (trackWidth / (trackWidth - thumbWidth / 2)
            * getRange p / p.step) : ℚ) * p.step :=
      mul_le_mul_of_nonneg_right (by exact_mod_cast h3) hs.le
    have h4 : p.maximumValue ≤ p.minimumValue
        + (jsRound (trackWidth / (trackWidth - thumbWidth / 2)
            * getRange p / p.step) : ℚ) * p.step := by
      have h6 : p.maximumValue = p.minimumValue + getRange p := by
        rw [getRange]
        ring
      linarith
    rw [min_eq_left h4, max_eq_right hmm.le]

/-- Reading the value at offset zero gives the minimum. -/
theorem valueForX_zero (p : SliderProps) (trackWidth thumbWidth : ℚ)
    (hmm : p.minimumValue ≤ p.maximumValue)
    (hd : trackWidth - thumbWidth / 2 ≠ 0) :
    jsValueForX p trackWidth thumbWidth 0 = p.minimumValue := by
  simp only [jsValueForX, getValueForX, jsDiv, if_neg hd, Option.map_some',
    Option.getD_some, zero_div, zero_mul, zero_add]
  split_ifs with hs
  · rw [jsRound_zero]
    simp [min_eq_right hmm]
  · simp [min_eq_right hmm]

/-- C5 (amended): with the primary thumb active in non-range mode, a positive
getValueForX divisor, a nonnegative thumb width and a step of zero or one
dividing the range, an increment at the maximum (resp. decrement at the
minimum) is a no-op on the committed value: it stays at the boundary and the
notification carries that same boundary value.  Away from a boundary the code
adds or subtracts one step to compute the target, but the committed and
notified value is the round trip getValueForX of getXForValue of that target,
which with a nonzero thumb width need not be exactly one step away. -/
theorem c5_boundary_amended (p : SliderProps) (s : SliderState)
    (hnr : p.useRange = false) (hA : s.activeDefault = true)
    (hmm : p.minimumValue < p.maximumValue)
    (hw : 0 ≤ s.initialThumbWidth)
    (hd : 0 < s.trackWidth - s.initialThumbWidth / 2)
    (hstep : p.step = 0 ∨ (0 < p.step ∧ ∃ k : ℤ, getRange p = (k : ℚ) * p.step)) :
    (jsValueForX p s.trackWidth s.initialThumbWidth s.x = p.maximumValue →
      (onAccessibilityAction p s A11yAction.increment).lastValue = p.maximumValue
      ∧ (onAccessibilityAction p s A11yAction.increment).events
          = SliderEvent.announce p.maximumValue
            :: SliderEvent.valueChange p.maximumValue :: s.events)
    ∧ (jsValueForX p s.trackWidth s.initialThumbWidth s.x = p.minimumValue →
      (onAccessibilityAction p s A11yAction.decrement).lastValue = p.minimumValue
      ∧ (onAccessibilityAction p s A11yAction.decrement).events
          = SliderEvent.announce p.minimumValue
            :: SliderEvent.valueChange p.minimumValue :: s.events) := by
  have hR : 0 < getRange p := by
    rw [getRange]
    linarith
  have hXmax := xForValue_max p s.trackWidth hR
  have hVtop := valueForX_top p s.trackWidth s.initialThumbWidth hmm hw hd hstep
  have hXmin := xForValue_min p s.trackWidth hR
  have hVzero := valueForX_zero p s.trackWidth s.initialThumbWidth hmm.le hd.ne'
  constructor
  · intro hv
    simp [onAccessibilityAction, hv, hXmax, hVtop, updateValue, onValueChange,
      moveTo, hnr, hA]
  · intro hv
    simp [onAccessibilityAction, hv, hXmin, hVzero, updateValue, onValueChange,
      moveTo, hnr, hA]

/-- C5 counterexample: at offset 44 (current value 50, not a boundary) with
step 10, min 0, max 100, a 100-pixel track and a 24-pixel thumb, the
increment action computes the target 60 (and announces 60) but commits and
notifies 70 — two steps above 50 — refuting that increment adds exactly one
step to the value. -/
theorem c5_counterexample :
    jsValueForX c5p c5s.trackWidth c5s.initialThumbWidth c5s.x = 50
    ∧ (onAccessibilityAction c5p c5s A11yAction.increment).lastValue = 70
    ∧ (onAccessibilityAction c5p c5s A11yAction.increment).events
        = [SliderEvent.announce 60, SliderEvent.valueChange 70]
    ∧ (70 : ℚ) ≠ 50 + c5p.step := by
  norm_num [onAccessibilityAction, updateValue, onValueChange, onRangeChange,
    moveTo, moveMinTo, leftForX, minLeftForX, shouldForceLTR, disableRTLG,
    jsXForValue, jsValueForX, getXForValue, getValueForX, jsDiv, jsRound,
    getRange, c5p, c5s, baseState]

/-- C5 witness for the amended theorem: at offset 88 the current value reads
as the maximum 100, and the increment action keeps the committed value at 100
and notifies 100. -/
theorem c5_boundary_witness :
    (onAccessibilityAction c5p c5bs A11yAction.increment).lastValue = 100
    ∧ (onAccessibilityAction c5p c5bs A11yAction.increment).events
        = SliderEvent.announce 100 :: SliderEvent.valueChange 100
          :: c5bs.events :=
  (c5_boundary_amended c5p c5bs rfl rfl (by norm_num [c5p])
    (by norm_num [c5bs, baseState]) (by norm_num [c5bs, baseState])
    (Or.inr ⟨by norm_num [c5p], ⟨10, by norm_num [c5p, getRange]⟩⟩)).1
    (by norm_num [jsValueForX, getValueForX, jsDiv, jsRound, getRange, c5p,
      c5bs, baseState])

end Slider
